import Mathlib

/-!
# Lifecycle orchestration of `harvester-node-manager` (`main.go`)

A shallow embedding of `main`, `initProfiling`, `initLogs` and `run`.

The program is a straight-line orchestration of external collaborators
(`clientcmd.BuildConfigFromFlags`, the two `NewFactoryFromConfig`
constructors, `ksmtuned.Register`, `start.All`, the shutdown context and
`Ksmtuned.Stop`).  Every collaborator is called at most once per process
run, so its behaviour in a run is the single outcome it gives; these
outcomes are collected in `Env`.  The embedding records each call of the
main goroutine, in program order, in an event trace, together with the way
the process ends.

The two detached goroutines (the diagnostic listener and the metrics loop)
are run beside the main sequence by `exec`, one step at a time under an
explicit schedule; a step of a goroutine may end the process.  The body of
the listener goroutine is in `main.go`; the body of `metrics.Run` is not
among the sources and follows the specification.

Library behaviour taken as given:
* `klog.Fatalf` / `klog.Fatal` log and leave the process with status 255;
* `logrus.Fatalf` logs and leaves the process with status 1;
* a `go` statement spawns its goroutine and returns at once;
* `app.Run` hands the parsed flags to `app.Action` and returns its error.
-/

namespace NodeManager

/-- Go `error`: `none` is `nil`, `some msg` is a non-nil error whose
`Error()` text is `msg`. -/
abbrev Error := Option String

namespace option

/-- The record `option.Option`, with the fields `main.go` reads or binds. -/
structure Option where
  KubeConfig : String
  MasterURL : String
  NodeName : String
  ProfilerAddress : String
  LogFormat : String
  Trace : Bool
  Debug : Bool
  Threadiness : Int
  deriving DecidableEq, Repr

end option

/-- Severity levels of `logrus`, in its order. -/
inductive Level where
  | PanicLevel
  | FatalLevel
  | ErrorLevel
  | WarnLevel
  | InfoLevel
  | DebugLevel
  | TraceLevel
  deriving DecidableEq, Repr

/-- Text that `%v` prints for a `logrus.Level`. -/
def Level.toString : Level → String
  | .PanicLevel => "panic"
  | .FatalLevel => "fatal"
  | .ErrorLevel => "error"
  | .WarnLevel => "warning"
  | .InfoLevel => "info"
  | .DebugLevel => "debug"
  | .TraceLevel => "trace"

/-- The three formatters `initLogs` can install. -/
inductive Formatter where
  | StandardFormatter
  | JSONFormatter
  | TextFormatter
  deriving DecidableEq, Repr

/-- Destination of the log output. -/
inductive Output where
  | Stderr
  | Stdout
  deriving DecidableEq, Repr

/-- The process-wide state of the standard `logrus` logger. -/
structure Logger where
  formatter : Formatter
  out : Output
  level : Level
  deriving DecidableEq, Repr

/-- The two watch-engine factories of `run`. -/
inductive Factory where
  | ksmtuneds
  | nodes
  deriving DecidableEq, Repr

/-- Calls made by the main goroutine, each with the arguments that matter
and, for a fallible collaborator, the error it returned. -/
inductive Event where
  | goListenAndServe (addr : String)
  | SetFormatter (f : Formatter)
  | SetOutput (o : Output)
  | Infof (msg : String)
  | SetLevel (l : Level)
  | Debugf (msg : String)
  | Tracef (msg : String)
  | SetupSignalContext
  | BuildConfigFromFlags (masterURL kubeConfig : String) (err : Error)
  | klogFatalf (msg : String)
  | NewNodeFactory (err : Error)
  | NewKsmtunedFactory (err : Error)
  | goMetricsRun
  | Register (nodeName : String) (err : Error)
  | logrusFatalf (msg : String)
  | StartAll (threadiness : Int) (factories : List Factory) (err : Error)
  | waitDone
  | ctxDone
  | Stop (err : Error)
  | klogFatal (msg : String)
  deriving DecidableEq, Repr

/-- Outcomes of the collaborators of the main sequence in one process run.
`cancelled` says whether the shutdown context is ever cancelled. -/
structure Env where
  friendlyVersion : String
  buildConfig : Error
  nodeFactory : Error
  ksmtunedFactory : Error
  register : Error
  startAll : Error
  cancelled : Bool
  stop : Error
  deriving DecidableEq, Repr

/-- Outcomes of the two detached side channels: `none` while the activity
keeps running, `some r` when it came back with `r`. -/
structure SideEnv where
  listenAndServe : Option String
  metricsRun : Option Error
  deriving DecidableEq, Repr

/-- How a function that may end the process comes back. -/
inductive RunResult where
  | returned (err : Error)
  | exited (code : Nat)
  | blocked
  deriving DecidableEq, Repr

/-- Values given on the command line or in the environment; `none` leaves
the flag at the `Value` of its declaration in `main`. -/
structure Flags where
  kubeconfig : Option String
  node : Option String
  profileListenAddress : Option String
  logFormat : Option String
  trace : Option Bool
  debug : Option Bool
  threadiness : Option Int
  deriving DecidableEq, Repr

/-- The flag table of `main`: every flag writes its value, or else its
`Value`, to its `Destination`.  `MasterURL` has no flag and keeps the zero
value.  The `IntFlag` has no validation attached. -/
def parseFlags (fl : Flags) : option.Option :=
  { KubeConfig := fl.kubeconfig.getD ""
    MasterURL := ""
    NodeName := fl.node.getD ""
    ProfilerAddress := fl.profileListenAddress.getD "0.0.0.0:6060"
    LogFormat := fl.logFormat.getD "text"
    Trace := fl.trace.getD false
    Debug := fl.debug.getD false
    Threadiness := fl.threadiness.getD 2 }

/-- `initProfiling`: spawn the diagnostic listener unless the address is
empty. -/
def initProfiling (opt : option.Option) : List Event :=
  if opt.ProfilerAddress ≠ "" then
    [Event.goListenAndServe opt.ProfilerAddress]
  else
    []

/-- `initLogs`: the logger state after the call and the calls made. -/
def initLogs (friendlyVersion : String) (opt : option.Option) (lg : Logger) :
    Logger × List Event :=
  let f : Formatter :=
    if opt.LogFormat = "simple" then Formatter.StandardFormatter
    else if opt.LogFormat = "json" then Formatter.JSONFormatter
    else Formatter.TextFormatter
  let lg1 : Logger := { lg with formatter := f }
  let lg2 : Logger := { lg1 with out := Output.Stdout }
  let tr2 : List Event :=
    [Event.SetFormatter f, Event.SetOutput Output.Stdout,
     Event.Infof ("Ksmtuned controller " ++ friendlyVersion ++ " is starting")]
  let (lg3, tr3) : Logger × List Event :=
    if opt.Debug then
      ({ lg2 with level := Level.DebugLevel },
       tr2 ++ [Event.SetLevel Level.DebugLevel,
               Event.Debugf ("Loglevel set to [" ++ Level.DebugLevel.toString ++ "]")])
    else (lg2, tr2)
  if opt.Trace then
    ({ lg3 with level := Level.TraceLevel },
     tr3 ++ [Event.SetLevel Level.TraceLevel,
             Event.Tracef ("Loglevel set to [" ++ Level.TraceLevel.toString ++ "]")])
  else (lg3, tr3)

/-- The closure `run := func(ctx context.Context)` inside `run`: the calls
made and `some code` when a `logrus.Fatalf` ended the process. -/
def runClosure (opt : option.Option) (env : Env) : List Event × Option Nat :=
  let tr := [Event.Register opt.NodeName env.register]
  match env.register with
  | some e =>
    (tr ++ [Event.logrusFatalf ("failed to register ksmtuned controller: " ++ e)], some 1)
  | none =>
    let tr := tr ++ [Event.StartAll opt.Threadiness [Factory.ksmtuneds, Factory.nodes]
      env.startAll]
    match env.startAll with
    | some e => (tr ++ [Event.logrusFatalf ("error starting, " ++ e)], some 1)
    | none => (tr, none)

/-- The function `run`. -/
def run (opt : option.Option) (env : Env) : List Event × RunResult :=
  let tr := [Event.SetupSignalContext,
    Event.BuildConfigFromFlags opt.MasterURL opt.KubeConfig env.buildConfig]
  match env.buildConfig with
  | some e =>
    (tr ++ [Event.klogFatalf ("Error building config from flags: " ++ e)],
     RunResult.exited 255)
  | none =>
    let tr := tr ++ [Event.NewNodeFactory env.nodeFactory]
    match env.nodeFactory with
    | some e => (tr, RunResult.returned (some ("error building node controllers: " ++ e)))
    | none =>
      let tr := tr ++ [Event.NewKsmtunedFactory env.ksmtunedFactory]
      match env.ksmtunedFactory with
      | some e =>
        (tr, RunResult.returned
          (some ("error building harvester-node-manager controllers: " ++ e)))
      | none =>
        let tr := tr ++ [Event.goMetricsRun]
        match runClosure opt env with
        | (trc, some code) => (tr ++ trc, RunResult.exited code)
        | (trc, none) =>
          let tr := tr ++ trc ++ [Event.waitDone]
          if env.cancelled then
            (tr ++ [Event.ctxDone, Event.Stop env.stop], RunResult.returned env.stop)
          else
            (tr, RunResult.blocked)

/-- What one process run shows: the logger state, the calls of the main
goroutine, the calls of the two detached goroutines (`none` when the
goroutine was never spawned) and the exit status (`none` when the process
waits for ever). -/
structure Process where
  logger : Logger
  trace : List Event
  profiler : Option (List String)
  metrics : Option (Option Error)
  exit : Option Nat
  deriving DecidableEq, Repr

/-- Body of the goroutine of `initProfiling`:
`log.Println(http.ListenAndServe(opt.ProfilerAddress, nil))`.  The list holds
the lines it printed so far. -/
def profilerGoroutine (side : SideEnv) : List String :=
  match side.listenAndServe with
  | none => []
  | some e => [e]

/-- The action of `main` on a parsed option record, followed by the check of
`app.Run`'s error. -/
def mainWith (opt : option.Option) (env : Env) (side : SideEnv) (lg : Logger) : Process :=
  let t1 := initProfiling opt
  let (lg1, t2) := initLogs env.friendlyVersion opt lg
  let (t3, r) := run opt env
  let tr := t1 ++ t2 ++ t3
  let prof : Option (List String) :=
    if Event.goListenAndServe opt.ProfilerAddress ∈ tr then some (profilerGoroutine side)
    else none
  let met : Option (Option Error) :=
    if Event.goMetricsRun ∈ tr then some side.metricsRun else none
  match r with
  | RunResult.returned none =>
    { logger := lg1, trace := tr, profiler := prof, metrics := met, exit := some 0 }
  | RunResult.returned (some e) =>
    { logger := lg1, trace := tr ++ [Event.klogFatal e], profiler := prof, metrics := met,
      exit := some 255 }
  | RunResult.exited code =>
    { logger := lg1, trace := tr, profiler := prof, metrics := met, exit := some code }
  | RunResult.blocked =>
    { logger := lg1, trace := tr, profiler := prof, metrics := met, exit := none }

/-- The function `main`. -/
def main (fl : Flags) (env : Env) (side : SideEnv) (lg : Logger) : Process :=
  mainWith (parseFlags fl) env side lg

/-- The standard logger as `logrus` creates it. -/
def stdLogger : Logger :=
  { formatter := Formatter.TextFormatter, out := Output.Stderr, level := Level.InfoLevel }

/-- No flag given. -/
def noFlags : Flags :=
  { kubeconfig := none, node := none, profileListenAddress := none, logFormat := none,
    trace := none, debug := none, threadiness := none }

/-- Both verbosity toggles set. -/
def debugAndTrace : Flags :=
  { noFlags with trace := some true, debug := some true }

/-- The concurrency factor given as zero. -/
def zeroThreadiness : Flags :=
  { noFlags with threadiness := some 0 }

/-- Every collaborator succeeds and the shutdown signal arrives. -/
def okEnv : Env :=
  { friendlyVersion := "v0.0.0-dev", buildConfig := none, nodeFactory := none,
    ksmtunedFactory := none, register := none, startAll := none, cancelled := true,
    stop := none }

/-- As `okEnv`, but `ksmtuned.Register` returns an error. -/
def registerFails : Env :=
  { okEnv with register := some "boom" }

/-- As `okEnv`, but `Stop` returns an error. -/
def stopFails : Env :=
  { okEnv with stop := some "boom" }

/-- As `okEnv`, but the tuning-kind factory cannot be built. -/
def ksmtunedFactoryFails : Env :=
  { okEnv with ksmtunedFactory := some "boom" }

/-- As `okEnv`, but the cluster-access configuration cannot be built. -/
def buildConfigFails : Env :=
  { okEnv with buildConfig := some "boom" }

/-- Both side channels keep running. -/
def okSide : SideEnv :=
  { listenAndServe := none, metricsRun := none }

/-- Calls of the logging set-up made by `initLogs`. -/
def Event.isLogging : Event → Bool
  | .SetFormatter _ => true
  | .SetOutput _ => true
  | .Infof _ => true
  | .SetLevel _ => true
  | .Debugf _ => true
  | .Tracef _ => true
  | _ => false

/-- Calls of `Ksmtuned.Stop`. -/
def Event.isStop : Event → Bool
  | .Stop _ => true
  | _ => false

/-- Calls of `start.All`. -/
def Event.isStartAll : Event → Bool
  | .StartAll _ _ _ => true
  | _ => false

/-- The listener cannot bind and the metrics loop comes back with an
error. -/
def failingSide : SideEnv :=
  { listenAndServe := some "listen tcp 0.0.0.0:6060: bind: address already in use",
    metricsRun := some (some "metrics failed") }

/-- The calls made before `run` is entered. -/
def startupCalls (opt : option.Option) (env : Env) (lg : Logger) : List Event :=
  initProfiling opt ++ (initLogs env.friendlyVersion opt lg).2

/-- The check of `app.Run`'s error in `main`. -/
def epilogue : RunResult → List Event
  | RunResult.returned (some e) => [Event.klogFatal e]
  | _ => []

/-- Exit status that `main` gives to the result of `run`. -/
def exitOf : RunResult → Option Nat
  | RunResult.returned none => some 0
  | RunResult.returned (some _) => some 255
  | RunResult.exited code => some code
  | RunResult.blocked => none

/-- One step of a detached goroutine.  `serving` and `looping` are calls
that never come back; `osExit` ends the whole process. -/
inductive GoAction where
  | ListenAndServe (addr : String)
  | serving
  | Println (line : String)
  | metricsRun
  | looping
  | logged (line : String)
  | osExit (code : Nat)
  deriving DecidableEq, Repr

/-- Steps that end the process. -/
def GoAction.isExit : GoAction → Bool
  | .osExit _ => true
  | _ => false

/-- The goroutine of `initProfiling`, step by step:
`log.Println(http.ListenAndServe(opt.ProfilerAddress, nil))`.
`ListenAndServe` either keeps serving or comes back with an error, which
`log.Println` prints; the goroutine then returns. -/
def listenerBody (addr : String) (side : SideEnv) : List GoAction :=
  match side.listenAndServe with
  | none => [GoAction.ListenAndServe addr, GoAction.serving]
  | some e => [GoAction.ListenAndServe addr, GoAction.Println e]

namespace metrics

/-- Modelled from the spec: the function `Run` of `pkg/metrics`, which
`run` starts with `go metrics.Run()` and whose body is not among the
sources.  The spec calls it "a metrics-emission loop", one of the
"fire-and-forget services" of which "failures here are logged, never fatal
to the main loop" and "their failure must never abort the main control
loop; at most they are logged".  So the loop keeps running, or returns, or
fails, and a failure is logged. -/
def Run (side : SideEnv) : List GoAction :=
  match side.metricsRun with
  | none => [GoAction.metricsRun, GoAction.looping]
  | some none => [GoAction.metricsRun]
  | some (some e) => [GoAction.metricsRun, GoAction.logged e]

end metrics

/-- The threads of control of the process. -/
inductive Tid where
  | main
  | profiler
  | metrics
  deriving DecidableEq, Repr

/-- The process while it runs: the calls the main goroutine has still to
make and those it has made, the steps each spawned goroutine has still to
take (`none` before it is spawned), the steps the goroutines have taken, and
the exit status once the process has ended. -/
structure World where
  todo : List Event
  trace : List Event
  profiler : Option (List GoAction)
  metrics : Option (List GoAction)
  done : List GoAction
  exit : Option Nat
  deriving DecidableEq, Repr

/-- One step of a goroutine with the steps `acts` left; `put` stores the
steps that remain. -/
def goStep (w : World) (acts : List GoAction) (put : List GoAction → World) : World :=
  match acts with
  | [] => w
  | GoAction.osExit c :: _ => { w with exit := some c }
  | GoAction.serving :: _ => w
  | GoAction.looping :: _ => w
  | a :: rest => { put rest with done := w.done ++ [a] }

/-- One step of the thread `t`.  Nothing moves once the process has ended.
The main goroutine makes its next call; a `go` call spawns the goroutine
with the body given (`lbody` for the listener, `mbody` for the metrics loop)
and the main goroutine goes on; with its last call made, the process ends
with the status `fin` of the main sequence (`none`: it waits for ever).  The
goroutines share no variable with the main sequence and hand nothing back
to it: what they can do to it is end the process. -/
def step (lbody : String → List GoAction) (mbody : List GoAction) (fin : Option Nat)
    (w : World) (t : Tid) : World :=
  if w.exit.isSome then w
  else
    match t with
    | Tid.main =>
      match w.todo with
      | [] => { w with exit := fin }
      | ev :: rest =>
        let w1 : World := { w with todo := rest, trace := w.trace ++ [ev] }
        let w2 : World :=
          match ev with
          | Event.goListenAndServe a => { w1 with profiler := some (lbody a) }
          | Event.goMetricsRun => { w1 with metrics := some mbody }
          | _ => w1
        if rest = [] then { w2 with exit := fin } else w2
    | Tid.profiler =>
      match w.profiler with
      | some acts => goStep w acts (fun r => { w with profiler := some r })
      | none => w
    | Tid.metrics =>
      match w.metrics with
      | some acts => goStep w acts (fun r => { w with metrics := some r })
      | none => w

/-- The process at its start, with the calls `prog` of the main sequence
before it. -/
def World.init (prog : List Event) : World :=
  { todo := prog, trace := [], profiler := none, metrics := none, done := [], exit := none }

/-- The process run under the schedule `sched` with the goroutine bodies
given. -/
def execWith (lbody : String → List GoAction) (mbody : List GoAction) (fin : Option Nat)
    (prog : List Event) (sched : List Tid) : World :=
  sched.foldl (step lbody mbody fin) (World.init prog)

/-- The process of `main` run under the schedule `sched`: the main sequence
of `mainWith` interleaved with the listener goroutine of `initProfiling`
and the goroutine of `metrics.Run`. -/
def exec (opt : option.Option) (env : Env) (side : SideEnv) (lg : Logger)
    (sched : List Tid) : World :=
  execWith (fun a => listenerBody a side) (metrics.Run side)
    (mainWith opt env side lg).exit (mainWith opt env side lg).trace sched

/-- The part of the process that belongs to the main sequence. -/
def World.core (w : World) : List Event × List Event × Option Nat :=
  (w.todo, w.trace, w.exit)

/-- One step of the main sequence run with no goroutine beside it. -/
def mainStep (fin : Option Nat) (c : List Event × List Event × Option Nat) (t : Tid) :
    List Event × List Event × Option Nat :=
  if c.2.2.isSome then c
  else
    match t with
    | Tid.main =>
      match c.1 with
      | [] => (c.1, c.2.1, fin)
      | ev :: rest => (rest, c.2.1 ++ [ev], if rest = [] then fin else c.2.2)
    | _ => c

/-- No step left in any spawned goroutine ends the process. -/
def World.exitFree (w : World) : Prop :=
  (∀ acts, w.profiler = some acts → ∀ a ∈ acts, a.isExit = false) ∧
    (∀ acts, w.metrics = some acts → ∀ a ∈ acts, a.isExit = false)

/-- A schedule that lets the three threads take turns. -/
def roundRobin : Nat → List Tid
  | 0 => []
  | n + 1 => Tid.main :: Tid.profiler :: Tid.metrics :: roundRobin n

/-! ## Auxiliary facts -/

theorem split_after_left {α : Type} {l1 l2 pre post : List α} {e : α}
    (hne : e ∉ l1) (h : l1 ++ l2 = pre ++ e :: post) :
    ∃ mid, pre = l1 ++ mid ∧ l2 = mid ++ e :: post := by
  rcases List.append_eq_append_iff.mp h with ⟨a, ha, hb⟩ | ⟨c, hc, hd⟩
  · exact ⟨a, ha, hb⟩
  · rcases c with _ | ⟨x, c⟩
    · refine ⟨[], ?_, ?_⟩
      · simpa using hc.symm
      · simpa using hd.symm
    · exfalso
      apply hne
      have hx : x = e := by
        have := congrArg List.head? hd
        simpa using this.symm
      subst hx
      rw [hc]
      simp

theorem initProfiling_mem (opt : option.Option) (ev : Event) :
    ev ∈ initProfiling opt ↔
      ev = Event.goListenAndServe opt.ProfilerAddress ∧ opt.ProfilerAddress ≠ "" := by
  unfold initProfiling
  by_cases h : opt.ProfilerAddress = "" <;> simp [h]

theorem initLogs_mem (v : String) (opt : option.Option) (lg : Logger) (ev : Event)
    (h : ev ∈ (initLogs v opt lg).2) : ev.isLogging = true := by
  unfold initLogs at h
  rcases hd : opt.Debug <;> rcases ht : opt.Trace <;> simp [hd, ht] at h <;>
    rcases h with h | h <;> aesop

theorem startupCalls_mem (opt : option.Option) (env : Env) (lg : Logger) (ev : Event)
    (h : ev ∈ startupCalls opt env lg) :
    (ev = Event.goListenAndServe opt.ProfilerAddress ∧ opt.ProfilerAddress ≠ "") ∨
      ev.isLogging = true := by
  unfold startupCalls at h
  rcases List.mem_append.mp h with h | h
  · exact Or.inl ((initProfiling_mem opt ev).mp h)
  · exact Or.inr (initLogs_mem _ opt lg ev h)

theorem mainWith_trace (opt : option.Option) (env : Env) (side : SideEnv) (lg : Logger) :
    (mainWith opt env side lg).trace =
      startupCalls opt env lg ++ ((run opt env).1 ++ epilogue (run opt env).2) := by
  unfold mainWith startupCalls
  rcases hr : run opt env with ⟨t, r⟩
  rcases hl : initLogs env.friendlyVersion opt lg with ⟨l, tl⟩
  rcases r with (_ | e) | c | _ <;> simp [epilogue]

theorem mainWith_exit (opt : option.Option) (env : Env) (side : SideEnv) (lg : Logger) :
    (mainWith opt env side lg).exit = exitOf (run opt env).2 := by
  unfold mainWith
  rcases hr : run opt env with ⟨t, r⟩
  rcases hl : initLogs env.friendlyVersion opt lg with ⟨l, tl⟩
  rcases r with (_ | e) | c | _ <;> simp [exitOf]

theorem mainWith_logger (opt : option.Option) (env : Env) (side : SideEnv) (lg : Logger) :
    (mainWith opt env side lg).logger = (initLogs env.friendlyVersion opt lg).1 := by
  unfold mainWith
  rcases hr : run opt env with ⟨t, r⟩
  rcases hl : initLogs env.friendlyVersion opt lg with ⟨l, tl⟩
  rcases r with (_ | e) | c | _ <;> simp

theorem run_cases (opt : option.Option) (env : Env) :
    (∃ e, env.buildConfig = some e ∧ run opt env =
      ([Event.SetupSignalContext,
        Event.BuildConfigFromFlags opt.MasterURL opt.KubeConfig (some e),
        Event.klogFatalf ("Error building config from flags: " ++ e)],
       RunResult.exited 255)) ∨
    (∃ e, env.buildConfig = none ∧ env.nodeFactory = some e ∧ run opt env =
      ([Event.SetupSignalContext,
        Event.BuildConfigFromFlags opt.MasterURL opt.KubeConfig none,
        Event.NewNodeFactory (some e)],
       RunResult.returned (some ("error building node controllers: " ++ e)))) ∨
    (∃ e, env.buildConfig = none ∧ env.nodeFactory = none ∧
      env.ksmtunedFactory = some e ∧ run opt env =
      ([Event.SetupSignalContext,
        Event.BuildConfigFromFlags opt.MasterURL opt.KubeConfig none,
        Event.NewNodeFactory none, Event.NewKsmtunedFactory (some e)],
       RunResult.returned
        (some ("error building harvester-node-manager controllers: " ++ e)))) ∨
    (∃ e, env.buildConfig = none ∧ env.nodeFactory = none ∧
      env.ksmtunedFactory = none ∧ env.register = some e ∧ run opt env =
      ([Event.SetupSignalContext,
        Event.BuildConfigFromFlags opt.MasterURL opt.KubeConfig none,
        Event.NewNodeFactory none, Event.NewKsmtunedFactory none, Event.goMetricsRun,
        Event.Register opt.NodeName (some e),
        Event.logrusFatalf ("failed to register ksmtuned controller: " ++ e)],
       RunResult.exited 1)) ∨
    (∃ e, env.buildConfig = none ∧ env.nodeFactory = none ∧
      env.ksmtunedFactory = none ∧ env.register = none ∧ env.startAll = some e ∧
      run opt env =
      ([Event.SetupSignalContext,
        Event.BuildConfigFromFlags opt.MasterURL opt.KubeConfig none,
        Event.NewNodeFactory none, Event.NewKsmtunedFactory none, Event.goMetricsRun,
        Event.Register opt.NodeName none,
        Event.StartAll opt.Threadiness [Factory.ksmtuneds, Factory.nodes] (some e),
        Event.logrusFatalf ("error starting, " ++ e)],
       RunResult.exited 1)) ∨
    (env.buildConfig = none ∧ env.nodeFactory = none ∧
      env.ksmtunedFactory = none ∧ env.register = none ∧ env.startAll = none ∧
      env.cancelled = false ∧ run opt env =
      ([Event.SetupSignalContext,
        Event.BuildConfigFromFlags opt.MasterURL opt.KubeConfig none,
        Event.NewNodeFactory none, Event.NewKsmtunedFactory none, Event.goMetricsRun,
        Event.Register opt.NodeName none,
        Event.StartAll opt.Threadiness [Factory.ksmtuneds, Factory.nodes] none,
        Event.waitDone],
       RunResult.blocked)) ∨
    (env.buildConfig = none ∧ env.nodeFactory = none ∧
      env.ksmtunedFactory = none ∧ env.register = none ∧ env.startAll = none ∧
      env.cancelled = true ∧ run opt env =
      ([Event.SetupSignalContext,
        Event.BuildConfigFromFlags opt.MasterURL opt.KubeConfig none,
        Event.NewNodeFactory none, Event.NewKsmtunedFactory none, Event.goMetricsRun,
        Event.Register opt.NodeName none,
        Event.StartAll opt.Threadiness [Factory.ksmtuneds, Factory.nodes] none,
        Event.waitDone, Event.ctxDone, Event.Stop env.stop],
       RunResult.returned env.stop)) := by
  rcases env with ⟨v, bc, nf, kf, rg, sa, c, st⟩
  rcases bc with _ | bc
  · rcases nf with _ | nf
    · rcases kf with _ | kf
      · rcases rg with _ | rg
        · rcases sa with _ | sa
          · rcases c with _ | c <;> simp [run, runClosure]
          · simp [run, runClosure]
        · simp [run, runClosure]
      · simp [run, runClosure]
    · simp [run, runClosure]
  · simp [run, runClosure]

/-- C1: in every trace of `run`, whatever the options and the outcomes of
the collaborators, each call of `start.All` has before it a call of
`ksmtuned.Register` that returned no error. -/
theorem register_precedes_startAll (opt : option.Option) (env : Env)
    (pre post : List Event) (thr : Int) (fs : List Factory) (r : Error)
    (h : (run opt env).1 = pre ++ Event.StartAll thr fs r :: post) :
    Event.Register opt.NodeName none ∈ pre := by
  rcases run_cases opt env with ⟨e, -, hr⟩ | ⟨e, -, -, hr⟩ | ⟨e, -, -, -, hr⟩ |
    ⟨e, -, -, -, -, hr⟩ | ⟨e, -, -, -, -, -, hr⟩ | ⟨-, -, -, -, -, -, hr⟩ |
    ⟨-, -, -, -, -, -, hr⟩ <;>
    rw [hr] at h <;> simp [List.cons_eq_append_iff] at h <;> aesop

theorem register_precedes_startAll_witness :
    (run (parseFlags noFlags) okEnv).1 =
        [Event.SetupSignalContext, Event.BuildConfigFromFlags "" "" none,
         Event.NewNodeFactory none, Event.NewKsmtunedFactory none, Event.goMetricsRun,
         Event.Register "" none] ++
        Event.StartAll 2 [Factory.ksmtuneds, Factory.nodes] none ::
          [Event.waitDone, Event.ctxDone, Event.Stop none] ∧
      Event.Register (parseFlags noFlags).NodeName none ∈
        [Event.SetupSignalContext, Event.BuildConfigFromFlags "" "" none,
         Event.NewNodeFactory none, Event.NewKsmtunedFactory none, Event.goMetricsRun,
         Event.Register "" none] :=
  ⟨by decide, register_precedes_startAll (parseFlags noFlags) okEnv _
    [Event.waitDone, Event.ctxDone, Event.Stop none] 2 [Factory.ksmtuneds, Factory.nodes]
    none (by decide)⟩

/-- C2: when `ksmtuned.Register` returns an error the run ends fatally
(`logrus.Fatalf`, status 1) and neither the trace of `run` nor the trace of
the whole process holds a call of `start.All`. -/
theorem register_error_aborts (opt : option.Option) (env : Env) (side : SideEnv)
    (lg : Logger) (name e : String)
    (h : Event.Register name (some e) ∈ (run opt env).1) :
    (run opt env).2 = RunResult.exited 1 ∧
      (mainWith opt env side lg).exit = some 1 ∧
      (∀ thr fs r, Event.StartAll thr fs r ∉ (run opt env).1) ∧
      (∀ thr fs r, Event.StartAll thr fs r ∉ (mainWith opt env side lg).trace) := by
  have hrun : (run opt env).2 = RunResult.exited 1 ∧
      ∀ thr fs r, Event.StartAll thr fs r ∉ (run opt env).1 := by
    rcases run_cases opt env with ⟨e, -, hr⟩ | ⟨e, -, -, hr⟩ | ⟨e, -, -, -, hr⟩ |
      ⟨e, -, -, -, -, hr⟩ | ⟨e, -, -, -, -, -, hr⟩ | ⟨-, -, -, -, -, -, hr⟩ |
      ⟨-, -, -, -, -, -, hr⟩ <;>
      rw [hr] at h ⊢ <;> simp at h ⊢
  refine ⟨hrun.1, ?_, hrun.2, ?_⟩
  · rw [mainWith_exit, hrun.1]; rfl
  · intro thr fs r hmem
    rw [mainWith_trace, hrun.1] at hmem
    simp only [epilogue, List.append_nil, List.mem_append] at hmem
    rcases hmem with hmem | hmem
    · rcases startupCalls_mem opt env lg _ hmem with ⟨h1, -⟩ | h1 <;> simp [Event.isLogging] at h1
    · exact hrun.2 thr fs r hmem

theorem register_error_aborts_witness :
    (run (parseFlags noFlags) registerFails).2 = RunResult.exited 1 ∧
      (mainWith (parseFlags noFlags) registerFails okSide stdLogger).exit = some 1 ∧
      (∀ thr fs r, Event.StartAll thr fs r ∉ (run (parseFlags noFlags) registerFails).1) ∧
      (∀ thr fs r, Event.StartAll thr fs r ∉
        (mainWith (parseFlags noFlags) registerFails okSide stdLogger).trace) :=
  register_error_aborts (parseFlags noFlags) registerFails okSide stdLogger "" "boom"
    (by decide)

/-- C3: `Ksmtuned.Stop` is called at most once in a run; it is called exactly
once when the whole start-up succeeded and the shutdown context is
cancelled; and each call of it has the observation of the cancellation
(`<-ctx.Done()`) before it. -/
theorem stop_once_after_cancellation (opt : option.Option) (env : Env) :
    (run opt env).1.countP Event.isStop ≤ 1 ∧
      (env.buildConfig = none → env.nodeFactory = none → env.ksmtunedFactory = none →
        env.register = none → env.startAll = none → env.cancelled = true →
        (run opt env).1.countP Event.isStop = 1) ∧
      (∀ pre post r, (run opt env).1 = pre ++ Event.Stop r :: post →
        Event.ctxDone ∈ pre) := by
  rcases run_cases opt env with ⟨e, h1, hr⟩ | ⟨e, h1, h2, hr⟩ | ⟨e, h1, h2, h3, hr⟩ |
    ⟨e, h1, h2, h3, h4, hr⟩ | ⟨e, h1, h2, h3, h4, h5, hr⟩ | ⟨h1, h2, h3, h4, h5, h6, hr⟩ |
    ⟨h1, h2, h3, h4, h5, h6, hr⟩ <;>
    rw [hr] <;>
    simp [h1, List.countP_cons, Event.isStop, List.cons_eq_append_iff] <;>
    aesop

theorem stop_once_after_cancellation_witness :
    (run (parseFlags noFlags) okEnv).1.countP Event.isStop = 1 :=
  (stop_once_after_cancellation (parseFlags noFlags) okEnv).2.1 rfl rfl rfl rfl rfl rfl

/-- C4: in a run that reaches shutdown after a successful start-up (the
cancellation of the shutdown context is observed), `run` returns exactly the
value `Stop` returned, and `main` leaves with status 0 exactly when that
value is nil and with a non-zero status (255, through `klog.Fatal`) exactly
when it is non-nil. -/
theorem exit_status_reflects_stop (opt : option.Option) (env : Env) (side : SideEnv)
    (lg : Logger) (h : Event.ctxDone ∈ (run opt env).1) :
    ∃ r, Event.Stop r ∈ (run opt env).1 ∧
      (∀ r', Event.Stop r' ∈ (run opt env).1 → r' = r) ∧
      (run opt env).2 = RunResult.returned r ∧
      ((mainWith opt env side lg).exit = some 0 ↔ r = none) ∧
      ((mainWith opt env side lg).exit = some 255 ↔ r ≠ none) ∧
      ((mainWith opt env side lg).exit = some 0 ∨
        (mainWith opt env side lg).exit = some 255) := by
  rw [mainWith_exit]
  rcases run_cases opt env with ⟨e, -, hr⟩ | ⟨e, -, -, hr⟩ | ⟨e, -, -, -, hr⟩ |
    ⟨e, -, -, -, -, hr⟩ | ⟨e, -, -, -, -, -, hr⟩ | ⟨-, -, -, -, -, -, hr⟩ |
    ⟨-, -, -, -, -, -, hr⟩ <;>
    rw [hr] at h ⊢ <;> simp at h ⊢
  rcases env.stop with _ | s <;> simp [exitOf]

theorem exit_status_reflects_stop_witness :
    ∃ r, Event.Stop r ∈ (run (parseFlags noFlags) stopFails).1 ∧
      (∀ r', Event.Stop r' ∈ (run (parseFlags noFlags) stopFails).1 → r' = r) ∧
      (run (parseFlags noFlags) stopFails).2 = RunResult.returned r ∧
      ((mainWith (parseFlags noFlags) stopFails okSide stdLogger).exit = some 0 ↔ r = none) ∧
      ((mainWith (parseFlags noFlags) stopFails okSide stdLogger).exit = some 255 ↔
        r ≠ none) ∧
      ((mainWith (parseFlags noFlags) stopFails okSide stdLogger).exit = some 0 ∨
        (mainWith (parseFlags noFlags) stopFails okSide stdLogger).exit = some 255) :=
  exit_status_reflects_stop (parseFlags noFlags) stopFails okSide stdLogger (by decide)

/-- C5: when the construction of the tuning-kind factory
(`ctlksmtuned.NewFactoryFromConfig`) fails, and likewise when the
construction of the node-kind factory fails, `run` returns a non-nil error,
the process leaves with a non-zero status, and the trace holds no call of
`ksmtuned.Register`, of `start.All` or of `Stop`. -/
theorem factory_failure_returns_error (opt : option.Option) (env : Env) (side : SideEnv)
    (lg : Logger) (e : String)
    (h : Event.NewKsmtunedFactory (some e) ∈ (run opt env).1 ∨
      Event.NewNodeFactory (some e) ∈ (run opt env).1) :
    (∃ msg, (run opt env).2 = RunResult.returned (some msg)) ∧
      (mainWith opt env side lg).exit = some 255 ∧
      (∀ n r, Event.Register n r ∉ (mainWith opt env side lg).trace) ∧
      (∀ thr fs r, Event.StartAll thr fs r ∉ (mainWith opt env side lg).trace) ∧
      (∀ r, Event.Stop r ∉ (mainWith opt env side lg).trace) := by
  have hrun : (∃ msg, (run opt env).2 = RunResult.returned (some msg)) ∧
      (∀ n r, Event.Register n r ∉ (run opt env).1) ∧
      (∀ thr fs r, Event.StartAll thr fs r ∉ (run opt env).1) ∧
      (∀ r, Event.Stop r ∉ (run opt env).1) := by
    rcases run_cases opt env with ⟨e, -, hr⟩ | ⟨e, -, -, hr⟩ | ⟨e, -, -, -, hr⟩ |
      ⟨e, -, -, -, -, hr⟩ | ⟨e, -, -, -, -, -, hr⟩ | ⟨-, -, -, -, -, -, hr⟩ |
      ⟨-, -, -, -, -, -, hr⟩ <;>
      rw [hr] at h ⊢ <;> simp at h ⊢
  obtain ⟨⟨msg, hmsg⟩, hreg, hstart, hstop⟩ := hrun
  have hsplit : ∀ ev, ev ∈ (mainWith opt env side lg).trace →
      ev ∈ startupCalls opt env lg ∨ ev ∈ (run opt env).1 ∨ ev = Event.klogFatal msg := by
    intro ev hev
    rw [mainWith_trace, hmsg] at hev
    simpa [epilogue] using hev
  refine ⟨⟨msg, hmsg⟩, ?_, ?_, ?_, ?_⟩
  · rw [mainWith_exit, hmsg]; rfl
  · intro n r hmem
    rcases hsplit _ hmem with h1 | h1 | h1
    · rcases startupCalls_mem opt env lg _ h1 with ⟨h2, -⟩ | h2 <;>
        simp [Event.isLogging] at h2
    · exact hreg n r h1
    · simp at h1
  · intro thr fs r hmem
    rcases hsplit _ hmem with h1 | h1 | h1
    · rcases startupCalls_mem opt env lg _ h1 with ⟨h2, -⟩ | h2 <;>
        simp [Event.isLogging] at h2
    · exact hstart thr fs r h1
    · simp at h1
  · intro r hmem
    rcases hsplit _ hmem with h1 | h1 | h1
    · rcases startupCalls_mem opt env lg _ h1 with ⟨h2, -⟩ | h2 <;>
        simp [Event.isLogging] at h2
    · exact hstop r h1
    · simp at h1

theorem factory_failure_returns_error_witness :
    (∃ msg, (run (parseFlags noFlags) ksmtunedFactoryFails).2 =
        RunResult.returned (some msg)) ∧
      (mainWith (parseFlags noFlags) ksmtunedFactoryFails okSide stdLogger).exit = some 255 ∧
      (∀ n r, Event.Register n r ∉
        (mainWith (parseFlags noFlags) ksmtunedFactoryFails okSide stdLogger).trace) ∧
      (∀ thr fs r, Event.StartAll thr fs r ∉
        (mainWith (parseFlags noFlags) ksmtunedFactoryFails okSide stdLogger).trace) ∧
      (∀ r, Event.Stop r ∉
        (mainWith (parseFlags noFlags) ksmtunedFactoryFails okSide stdLogger).trace) :=
  factory_failure_returns_error (parseFlags noFlags) ksmtunedFactoryFails okSide stdLogger
    "boom" (Or.inl (by decide))

theorem listen_mem_startupCalls (opt : option.Option) (env : Env) (lg : Logger) (a : String) :
    Event.goListenAndServe a ∈ startupCalls opt env lg ↔
      a = opt.ProfilerAddress ∧ opt.ProfilerAddress ≠ "" := by
  unfold startupCalls
  rw [List.mem_append, initProfiling_mem]
  constructor
  · rintro (⟨h1, h2⟩ | h)
    · exact ⟨by simpa using h1, h2⟩
    · have := initLogs_mem _ opt lg _ h
      simp [Event.isLogging] at this
  · rintro ⟨h1, h2⟩
    exact Or.inl ⟨by rw [h1], h2⟩

theorem epilogue_mem (r : RunResult) (ev : Event) (h : ev ∈ epilogue r) :
    ∃ e, ev = Event.klogFatal e := by
  rcases r with (_ | e) | c | _ <;> simp [epilogue] at h
  exact ⟨e, h⟩

theorem register_error_shape (opt : option.Option) (env : Env) (name e : String)
    (h : Event.Register name (some e) ∈ (run opt env).1 ++ epilogue (run opt env).2) :
    name = opt.NodeName ∧ run opt env =
      ([Event.SetupSignalContext,
        Event.BuildConfigFromFlags opt.MasterURL opt.KubeConfig none,
        Event.NewNodeFactory none, Event.NewKsmtunedFactory none, Event.goMetricsRun,
        Event.Register opt.NodeName (some e),
        Event.logrusFatalf ("failed to register ksmtuned controller: " ++ e)],
       RunResult.exited 1) := by
  rcases run_cases opt env with ⟨e, -, hr⟩ | ⟨e, -, -, hr⟩ | ⟨e, -, -, -, hr⟩ |
    ⟨e, -, -, -, -, hr⟩ | ⟨e, -, -, -, -, -, hr⟩ | ⟨-, -, -, -, -, -, hr⟩ |
    ⟨-, -, -, -, -, -, hr⟩
  · rw [hr] at h; simp [epilogue] at h
  · rw [hr] at h; simp [epilogue] at h
  · rw [hr] at h; simp [epilogue] at h
  · rw [hr] at h; simp [epilogue] at h
    rw [hr, h.1, h.2]
    exact ⟨rfl, rfl⟩
  · rw [hr] at h; simp [epilogue] at h
  · rw [hr] at h; simp [epilogue] at h
  · rw [hr] at h
    rcases List.mem_append.mp h with h | h
    · simp at h
    · obtain ⟨x, hx⟩ := epilogue_mem _ _ h
      cases hx

/-- C6, counterexample: with the default flags and a registration that
fails, the diagnostic listener and the metrics loop have both been started
before the failed call of `ksmtuned.Register`. -/
theorem side_channels_begun_before_failed_register :
    (main noFlags registerFails okSide stdLogger).trace =
      [Event.goListenAndServe "0.0.0.0:6060",
       Event.SetFormatter Formatter.TextFormatter,
       Event.SetOutput Output.Stdout,
       Event.Infof "Ksmtuned controller v0.0.0-dev is starting",
       Event.SetupSignalContext,
       Event.BuildConfigFromFlags "" "" none,
       Event.NewNodeFactory none,
       Event.NewKsmtunedFactory none,
       Event.goMetricsRun,
       Event.Register "" (some "boom"),
       Event.logrusFatalf "failed to register ksmtuned controller: boom"] := by
  decide

/-- C6, amended: when `ksmtuned.Register` returns an error the process ends
with status 1 and the fatal log is the only call after the failed
registration, so no engine is started and no side channel is begun after
it; the metrics loop has been started before the registration call, and the
diagnostic listener has been started before it exactly when
`ProfilerAddress` is not empty. -/
theorem failed_register_starts_nothing_further (opt : option.Option) (env : Env)
    (side : SideEnv) (lg : Logger) (name e : String) (pre post : List Event)
    (h : (mainWith opt env side lg).trace = pre ++ Event.Register name (some e) :: post) :
    post = [Event.logrusFatalf ("failed to register ksmtuned controller: " ++ e)] ∧
      (mainWith opt env side lg).exit = some 1 ∧
      Event.goMetricsRun ∈ pre ∧
      (Event.goListenAndServe opt.ProfilerAddress ∈ pre ↔ opt.ProfilerAddress ≠ "") := by
  rw [mainWith_trace] at h
  rw [mainWith_exit]
  have hne : Event.Register name (some e) ∉ startupCalls opt env lg := by
    intro hmem
    rcases startupCalls_mem opt env lg _ hmem with ⟨h1, -⟩ | h1 <;>
      simp [Event.isLogging] at h1
  obtain ⟨mid, hpre, hmid⟩ := split_after_left hne h
  subst hpre
  have hl : Event.goListenAndServe opt.ProfilerAddress ∈ startupCalls opt env lg ↔
      opt.ProfilerAddress ≠ "" := by
    rw [listen_mem_startupCalls]; simp
  have hmem : Event.Register name (some e) ∈ (run opt env).1 ++ epilogue (run opt env).2 := by
    rw [hmid]; simp
  obtain ⟨-, hr⟩ := register_error_shape opt env name e hmem
  rw [hr] at hmid ⊢
  simp only [epilogue, List.append_nil] at hmid
  simp [List.cons_eq_append_iff] at hmid
  obtain ⟨_, rfl, _, rfl, _, rfl, _, rfl, _, rfl, rfl, -, rfl⟩ := hmid
  simp [exitOf, hl]

theorem failed_register_starts_nothing_further_witness :
    [Event.logrusFatalf "failed to register ksmtuned controller: boom"] =
        [Event.logrusFatalf ("failed to register ksmtuned controller: " ++ "boom")] ∧
      (mainWith (parseFlags noFlags) registerFails okSide stdLogger).exit = some 1 ∧
      Event.goMetricsRun ∈
        [Event.goListenAndServe "0.0.0.0:6060",
         Event.SetFormatter Formatter.TextFormatter,
         Event.SetOutput Output.Stdout,
         Event.Infof "Ksmtuned controller v0.0.0-dev is starting",
         Event.SetupSignalContext,
         Event.BuildConfigFromFlags "" "" none,
         Event.NewNodeFactory none,
         Event.NewKsmtunedFactory none,
         Event.goMetricsRun] ∧
      (Event.goListenAndServe (parseFlags noFlags).ProfilerAddress ∈
        [Event.goListenAndServe "0.0.0.0:6060",
         Event.SetFormatter Formatter.TextFormatter,
         Event.SetOutput Output.Stdout,
         Event.Infof "Ksmtuned controller v0.0.0-dev is starting",
         Event.SetupSignalContext,
         Event.BuildConfigFromFlags "" "" none,
         Event.NewNodeFactory none,
         Event.NewKsmtunedFactory none,
         Event.goMetricsRun] ↔ (parseFlags noFlags).ProfilerAddress ≠ "") :=
  failed_register_starts_nothing_further (parseFlags noFlags) registerFails okSide stdLogger
    "" "boom" _ [Event.logrusFatalf "failed to register ksmtuned controller: boom"]
    (by decide)

theorem buildConfig_error_shape (opt : option.Option) (env : Env) (m k e : String)
    (h : Event.BuildConfigFromFlags m k (some e) ∈
      (run opt env).1 ++ epilogue (run opt env).2) :
    run opt env =
      ([Event.SetupSignalContext,
        Event.BuildConfigFromFlags opt.MasterURL opt.KubeConfig (some e),
        Event.klogFatalf ("Error building config from flags: " ++ e)],
       RunResult.exited 255) := by
  rcases run_cases opt env with ⟨e, -, hr⟩ | ⟨e, -, -, hr⟩ | ⟨e, -, -, -, hr⟩ |
    ⟨e, -, -, -, -, hr⟩ | ⟨e, -, -, -, -, -, hr⟩ | ⟨-, -, -, -, -, -, hr⟩ |
    ⟨-, -, -, -, -, -, hr⟩
  · rw [hr] at h; simp [epilogue] at h
    rw [hr, h.2.2]
  · rw [hr] at h; simp [epilogue] at h
  · rw [hr] at h; simp [epilogue] at h
  · rw [hr] at h; simp [epilogue] at h
  · rw [hr] at h; simp [epilogue] at h
  · rw [hr] at h; simp [epilogue] at h
  · rw [hr] at h
    rcases List.mem_append.mp h with h | h
    · simp at h
    · obtain ⟨x, hx⟩ := epilogue_mem _ _ h
      cases hx

/-- C7, counterexample: with the default flags and a cluster-access
configuration that cannot be built, the diagnostic listener has been started
before the failing call of `clientcmd.BuildConfigFromFlags`. -/
theorem listener_started_before_config_failure :
    (main noFlags buildConfigFails okSide stdLogger).trace =
      [Event.goListenAndServe "0.0.0.0:6060",
       Event.SetFormatter Formatter.TextFormatter,
       Event.SetOutput Output.Stdout,
       Event.Infof "Ksmtuned controller v0.0.0-dev is starting",
       Event.SetupSignalContext,
       Event.BuildConfigFromFlags "" "" (some "boom"),
       Event.klogFatalf "Error building config from flags: boom"] := by
  decide

/-- C7, amended: when `clientcmd.BuildConfigFromFlags` fails the process
ends at once through `klog.Fatalf` (status 255); its trace is the calls of
`initProfiling` and `initLogs`, the set-up of the signal context, the failed
call and the fatal log.  So no factory is built, no registration, engine
start or stop is attempted and no metrics loop is started, the calls of
`initLogs` are logging calls, and the diagnostic listener has been started
exactly when `ProfilerAddress` is not empty. -/
theorem config_failure_aborts (opt : option.Option) (env : Env) (side : SideEnv)
    (lg : Logger) (m k e : String)
    (h : Event.BuildConfigFromFlags m k (some e) ∈ (mainWith opt env side lg).trace) :
    (mainWith opt env side lg).trace =
        initProfiling opt ++ (initLogs env.friendlyVersion opt lg).2 ++
          [Event.SetupSignalContext,
           Event.BuildConfigFromFlags opt.MasterURL opt.KubeConfig (some e),
           Event.klogFatalf ("Error building config from flags: " ++ e)] ∧
      (mainWith opt env side lg).exit = some 255 ∧
      (∀ ev ∈ (initLogs env.friendlyVersion opt lg).2, ev.isLogging = true) ∧
      (∀ r, Event.NewNodeFactory r ∉ (mainWith opt env side lg).trace) ∧
      (∀ r, Event.NewKsmtunedFactory r ∉ (mainWith opt env side lg).trace) ∧
      (∀ n r, Event.Register n r ∉ (mainWith opt env side lg).trace) ∧
      (∀ thr fs r, Event.StartAll thr fs r ∉ (mainWith opt env side lg).trace) ∧
      (∀ r, Event.Stop r ∉ (mainWith opt env side lg).trace) ∧
      Event.goMetricsRun ∉ (mainWith opt env side lg).trace ∧
      (∀ a, Event.goListenAndServe a ∈ (mainWith opt env side lg).trace ↔
        a = opt.ProfilerAddress ∧ opt.ProfilerAddress ≠ "") := by
  have hne : Event.BuildConfigFromFlags m k (some e) ∉ startupCalls opt env lg := by
    intro hmem
    rcases startupCalls_mem opt env lg _ hmem with ⟨h1, -⟩ | h1 <;>
      simp [Event.isLogging] at h1
  have hnot : ∀ ev, ev ∈ startupCalls opt env lg →
      (∀ a, ev ≠ Event.goListenAndServe a) → ev.isLogging = true := by
    intro ev hev hx
    rcases startupCalls_mem opt env lg _ hev with ⟨h1, -⟩ | h1
    · exact absurd h1 (hx _)
    · exact h1
  rw [mainWith_trace] at h
  have hr := buildConfig_error_shape opt env m k e
    ((List.mem_append.mp h).resolve_left hne)
  have htr : (mainWith opt env side lg).trace =
      startupCalls opt env lg ++
        [Event.SetupSignalContext,
         Event.BuildConfigFromFlags opt.MasterURL opt.KubeConfig (some e),
         Event.klogFatalf ("Error building config from flags: " ++ e)] := by
    rw [mainWith_trace, hr]; simp [epilogue]
  refine ⟨by rw [htr]; rfl, by rw [mainWith_exit, hr]; rfl,
    fun ev hev => initLogs_mem _ opt lg ev hev, ?_, ?_, ?_, ?_, ?_, ?_, ?_⟩
  · intro r hmem
    rw [htr] at hmem
    simp at hmem
    simpa [Event.isLogging] using hnot _ hmem (by simp)
  · intro r hmem
    rw [htr] at hmem
    simp at hmem
    simpa [Event.isLogging] using hnot _ hmem (by simp)
  · intro n r hmem
    rw [htr] at hmem
    simp at hmem
    simpa [Event.isLogging] using hnot _ hmem (by simp)
  · intro thr fs r hmem
    rw [htr] at hmem
    simp at hmem
    simpa [Event.isLogging] using hnot _ hmem (by simp)
  · intro r hmem
    rw [htr] at hmem
    simp at hmem
    simpa [Event.isLogging] using hnot _ hmem (by simp)
  · intro hmem
    rw [htr] at hmem
    simp at hmem
    simpa [Event.isLogging] using hnot _ hmem (by simp)
  · intro a
    rw [htr]
    simp [listen_mem_startupCalls]

theorem config_failure_aborts_witness :
    (mainWith (parseFlags noFlags) buildConfigFails okSide stdLogger).exit = some 255 ∧
      Event.goMetricsRun ∉
        (mainWith (parseFlags noFlags) buildConfigFails okSide stdLogger).trace :=
  ⟨(config_failure_aborts (parseFlags noFlags) buildConfigFails okSide stdLogger "" ""
      "boom" (by decide)).2.1,
   (config_failure_aborts (parseFlags noFlags) buildConfigFails okSide stdLogger "" ""
      "boom" (by decide)).2.2.2.2.2.2.2.2.1⟩

/-- C8: after `initLogs` the log level is the trace level whenever
`opt.Trace` is set, whatever `opt.Debug` is; it is the debug level when
`opt.Debug` is set and `opt.Trace` is not; and it is the level from before
the call when neither is set. -/
theorem initLogs_level (v : String) (opt : option.Option) (lg : Logger) :
    (opt.Trace = true → (initLogs v opt lg).1.level = Level.TraceLevel) ∧
      (opt.Debug = true → opt.Trace = false →
        (initLogs v opt lg).1.level = Level.DebugLevel) ∧
      (opt.Debug = false → opt.Trace = false →
        (initLogs v opt lg).1.level = lg.level) := by
  unfold initLogs
  rcases hd : opt.Debug <;> rcases ht : opt.Trace <;> simp

theorem initLogs_level_witness :
    (initLogs "v0.0.0-dev" (parseFlags debugAndTrace) stdLogger).1.level =
      Level.TraceLevel :=
  (initLogs_level "v0.0.0-dev" (parseFlags debugAndTrace) stdLogger).1 rfl

theorem startupCalls_countP_isStartAll (opt : option.Option) (env : Env) (lg : Logger) :
    (startupCalls opt env lg).countP Event.isStartAll = 0 := by
  rw [List.countP_eq_zero]
  intro ev hev
  rcases startupCalls_mem opt env lg _ hev with ⟨h1, -⟩ | h1
  · rw [h1]; simp [Event.isStartAll]
  · cases ev <;> simp_all [Event.isLogging, Event.isStartAll]

theorem epilogue_countP_isStartAll (r : RunResult) :
    (epilogue r).countP Event.isStartAll = 0 := by
  rcases r with (_ | e) | c | _ <;> simp [epilogue, Event.isStartAll]

/-- C9, counterexample: the flag `--threadiness 0` is accepted, and the run
that reaches engine start then hands the concurrency factor 0 to
`start.All`. -/
theorem startAll_with_zero_threadiness :
    ¬ (∀ thr fs r,
      Event.StartAll thr fs r ∈ (main zeroThreadiness okEnv okSide stdLogger).trace →
        1 ≤ thr) := by
  intro h
  have h0 := h 0 [Factory.ksmtuneds, Factory.nodes] none (by decide)
  exact absurd h0 (by decide)

/-- C9, amended: in every run that reaches engine start, the concurrency
factor handed to `start.All` is the configured threadiness as it is, 2 when
the flag is not given and the given integer otherwise (so it is positive
whenever the given value is), and both factories are started in one single
call of `start.All`. -/
theorem startAll_gets_configured_threadiness (fl : Flags) (env : Env) (side : SideEnv)
    (lg : Logger) (thr : Int) (fs : List Factory) (r : Error)
    (h : Event.StartAll thr fs r ∈ (main fl env side lg).trace) :
    thr = (parseFlags fl).Threadiness ∧
      (fl.threadiness = none → thr = 2) ∧
      (∀ n, fl.threadiness = some n → thr = n) ∧
      (∀ n, fl.threadiness = some n → 1 ≤ n → 1 ≤ thr) ∧
      fs = [Factory.ksmtuneds, Factory.nodes] ∧
      (main fl env side lg).trace.countP Event.isStartAll = 1 := by
  unfold main at h ⊢
  rw [mainWith_trace] at h ⊢
  have hrun : Event.StartAll thr fs r ∈ (run (parseFlags fl) env).1 := by
    rcases List.mem_append.mp h with h1 | h1
    · rcases startupCalls_mem _ env lg _ h1 with ⟨h2, -⟩ | h2 <;>
        simp [Event.isLogging] at h2
    · rcases List.mem_append.mp h1 with h2 | h2
      · exact h2
      · obtain ⟨x, hx⟩ := epilogue_mem _ _ h2
        cases hx
  have key : thr = (parseFlags fl).Threadiness ∧ fs = [Factory.ksmtuneds, Factory.nodes] ∧
      (run (parseFlags fl) env).1.countP Event.isStartAll = 1 := by
    rcases run_cases (parseFlags fl) env with ⟨e, -, hr⟩ | ⟨e, -, -, hr⟩ | ⟨e, -, -, -, hr⟩ |
      ⟨e, -, -, -, -, hr⟩ | ⟨e, -, -, -, -, -, hr⟩ | ⟨-, -, -, -, -, -, hr⟩ |
      ⟨-, -, -, -, -, -, hr⟩ <;>
      rw [hr] at hrun ⊢ <;>
      simp [List.countP_cons, Event.isStartAll] at hrun ⊢ <;>
      exact ⟨hrun.1, hrun.2.1⟩
  obtain ⟨hthr, hfs, hcount⟩ := key
  have hpf : (parseFlags fl).Threadiness = fl.threadiness.getD 2 := rfl
  refine ⟨hthr, ?_, ?_, ?_, hfs, ?_⟩
  · intro hn
    rw [hthr, hpf, hn]; rfl
  · intro n hn
    rw [hthr, hpf, hn]; rfl
  · intro n hn hpos
    rw [hthr, hpf, hn]; exact hpos
  · rw [List.countP_append, List.countP_append, startupCalls_countP_isStartAll,
      epilogue_countP_isStartAll, hcount]

theorem startAll_gets_configured_threadiness_witness :
    (0 : Int) = (parseFlags zeroThreadiness).Threadiness ∧
      (main zeroThreadiness okEnv okSide stdLogger).trace.countP Event.isStartAll = 1 :=
  ⟨(startAll_gets_configured_threadiness zeroThreadiness okEnv okSide stdLogger 0
      [Factory.ksmtuneds, Factory.nodes] none (by decide)).1,
   (startAll_gets_configured_threadiness zeroThreadiness okEnv okSide stdLogger 0
      [Factory.ksmtuneds, Factory.nodes] none (by decide)).2.2.2.2.2⟩

theorem initLogs_head (v : String) (opt : option.Option) (lg : Logger) :
    ∃ f tl, (initLogs v opt lg).2 = Event.SetFormatter f :: tl := by
  unfold initLogs
  rcases hd : opt.Debug <;> rcases ht : opt.Trace <;> simp

theorem listen_not_mem_run (opt : option.Option) (env : Env) (a : String) :
    Event.goListenAndServe a ∉ (run opt env).1 ++ epilogue (run opt env).2 := by
  intro h
  rcases List.mem_append.mp h with h | h
  · rcases run_cases opt env with ⟨e, -, hr⟩ | ⟨e, -, -, hr⟩ | ⟨e, -, -, -, hr⟩ |
      ⟨e, -, -, -, -, hr⟩ | ⟨e, -, -, -, -, -, hr⟩ | ⟨-, -, -, -, -, -, hr⟩ |
      ⟨-, -, -, -, -, -, hr⟩ <;>
      rw [hr] at h <;> simp at h
  · obtain ⟨x, hx⟩ := epilogue_mem _ _ h
    cases hx

theorem metrics_followed_by_register (opt : option.Option) (env : Env)
    (mid post : List Event)
    (h : (run opt env).1 ++ epilogue (run opt env).2 = mid ++ Event.goMetricsRun :: post) :
    ∃ tl, post = Event.Register opt.NodeName env.register :: tl := by
  rcases run_cases opt env with ⟨e, -, hr⟩ | ⟨e, -, -, hr⟩ | ⟨e, -, -, -, hr⟩ |
    ⟨e, -, -, -, h4, hr⟩ | ⟨e, -, -, -, h4, -, hr⟩ | ⟨-, -, -, h4, -, -, hr⟩ |
    ⟨-, -, -, h4, -, -, hr⟩
  · rw [hr] at h; simp [epilogue, List.cons_eq_append_iff] at h
  · rw [hr] at h; simp [epilogue, List.cons_eq_append_iff] at h
  · rw [hr] at h; simp [epilogue, List.cons_eq_append_iff] at h
  · rw [hr] at h; rw [h4]
    simp [epilogue, List.cons_eq_append_iff] at h
    obtain ⟨_, -, _, -, _, -, _, -, -, hp⟩ := h
    exact ⟨_, hp⟩
  · rw [hr] at h; rw [h4]
    simp [epilogue, List.cons_eq_append_iff] at h
    obtain ⟨_, -, _, -, _, -, _, -, -, hp⟩ := h
    exact ⟨_, hp⟩
  · rw [hr] at h; rw [h4]
    simp [epilogue, List.cons_eq_append_iff] at h
    obtain ⟨_, -, _, -, _, -, _, -, -, hp⟩ := h
    exact ⟨_, hp⟩
  · rw [hr] at h; rw [h4]
    rcases hs : env.stop with _ | s <;> rw [hs] at h <;>
      simp [epilogue, List.cons_eq_append_iff] at h <;>
      obtain ⟨_, -, _, -, _, -, _, -, -, hp⟩ := h <;>
      exact ⟨_, hp⟩

theorem listenerBody_exitFree (addr : String) (side : SideEnv) :
    ∀ a ∈ listenerBody addr side, a.isExit = false := by
  unfold listenerBody
  rcases side.listenAndServe with _ | e <;> simp [GoAction.isExit]

theorem metricsRun_exitFree (side : SideEnv) :
    ∀ a ∈ metrics.Run side, a.isExit = false := by
  unfold metrics.Run
  rcases side.metricsRun with _ | _ | e <;> simp [GoAction.isExit]

theorem goStep_core (w : World) (acts : List GoAction) (put : List GoAction → World)
    (hput : ∀ r, (put r).core = w.core) (hacts : ∀ a ∈ acts, a.isExit = false) :
    (goStep w acts put).core = w.core := by
  rcases acts with _ | ⟨a, rest⟩
  · rfl
  · have ha := hacts a (by simp)
    have hp := hput rest
    cases a <;> simp_all [goStep, World.core, GoAction.isExit]

theorem step_core (lbody : String → List GoAction) (mbody : List GoAction)
    (fin : Option Nat) (w : World) (t : Tid) (hw : w.exitFree) :
    (step lbody mbody fin w t).core = mainStep fin w.core t := by
  unfold step mainStep
  by_cases hx : w.exit.isSome = true
  · simp [hx, World.core]
  · cases t
    · rcases htodo : w.todo with _ | ⟨ev, rest⟩
      · simp [hx, World.core, htodo]
      · by_cases hrest : rest = [] <;> cases ev <;>
          simp [hx, World.core, htodo, hrest]
    · rcases hp : w.profiler with _ | acts
      · simp [hx, World.core]
      · have := goStep_core w acts (fun r => { w with profiler := some r })
          (fun r => rfl) (hw.1 acts hp)
        simpa [hx, World.core] using this
    · rcases hp : w.metrics with _ | acts
      · simp [hx, World.core]
      · have := goStep_core w acts (fun r => { w with metrics := some r })
          (fun r => rfl) (hw.2 acts hp)
        simpa [hx, World.core] using this

theorem goStep_exitFree (w : World) (acts : List GoAction) (put : List GoAction → World)
    (hw : w.exitFree) (hput : ∀ r, (∀ a ∈ r, a ∈ acts) → (put r).exitFree) :
    (goStep w acts put).exitFree := by
  rcases acts with _ | ⟨a, rest⟩
  · exact hw
  · have hp := hput rest (fun x hx => List.mem_cons_of_mem _ hx)
    cases a <;> first
      | exact hw
      | exact hp

theorem step_exitFree (lbody : String → List GoAction) (mbody : List GoAction)
    (fin : Option Nat) (w : World) (t : Tid)
    (hl : ∀ addr, ∀ a ∈ lbody addr, a.isExit = false)
    (hm : ∀ a ∈ mbody, a.isExit = false) (hw : w.exitFree) :
    (step lbody mbody fin w t).exitFree := by
  unfold step
  by_cases hx : w.exit.isSome = true
  · simpa [hx] using hw
  · simp only [hx, Bool.false_eq_true, if_false]
    cases t
    · rcases htodo : w.todo with _ | ⟨ev, rest⟩
      · exact hw
      · obtain ⟨h1, h2⟩ := hw
        by_cases hrest : rest = [] <;> cases ev <;>
          simp only [hrest, if_true, if_false] <;>
          first
            | exact ⟨h1, h2⟩
            | exact ⟨fun acts ha => by cases ha; exact hl _, h2⟩
            | exact ⟨h1, fun acts ha => by cases ha; exact hm⟩
    · rcases hp : w.profiler with _ | acts
      · exact hw
      · apply goStep_exitFree w acts _ hw
        intro r hr
        exact ⟨fun acts' ha => by cases ha; exact fun a ha => hw.1 acts hp a (hr a ha), hw.2⟩
    · rcases hp : w.metrics with _ | acts
      · exact hw
      · apply goStep_exitFree w acts _ hw
        intro r hr
        exact ⟨hw.1, fun acts' ha => by cases ha; exact fun a ha => hw.2 acts hp a (hr a ha)⟩

theorem foldl_step_core (lbody : String → List GoAction) (mbody : List GoAction)
    (fin : Option Nat) (hl : ∀ addr, ∀ a ∈ lbody addr, a.isExit = false)
    (hm : ∀ a ∈ mbody, a.isExit = false) (sched : List Tid) :
    ∀ w : World, w.exitFree →
      (sched.foldl (step lbody mbody fin) w).core = sched.foldl (mainStep fin) w.core := by
  induction sched with
  | nil => intro w _; rfl
  | cons t ts ih =>
    intro w hw
    rw [List.foldl_cons, List.foldl_cons, ih _ (step_exitFree lbody mbody fin w t hl hm hw),
      step_core lbody mbody fin w t hw]

theorem execWith_core (lbody : String → List GoAction) (mbody : List GoAction)
    (fin : Option Nat) (hl : ∀ addr, ∀ a ∈ lbody addr, a.isExit = false)
    (hm : ∀ a ∈ mbody, a.isExit = false) (prog : List Event) (sched : List Tid) :
    (execWith lbody mbody fin prog sched).core =
      sched.foldl (mainStep fin) (prog, [], none) := by
  unfold execWith
  rw [foldl_step_core lbody mbody fin hl hm sched _
    ⟨fun acts h => (by cases h), fun acts h => (by cases h)⟩]
  rfl

theorem take_one_append_take_drop {α : Type} (l : List α) (n : Nat) :
    l.take 1 ++ (l.drop 1).take n = l.take (n + 1) := by
  cases l <;> simp

theorem foldl_mainStep (fin : Option Nat) (sched : List Tid) :
    ∀ c : List Event × List Event × Option Nat,
      (c.2.2.isSome = true → c.1 = []) → (c.2.2 = none ∨ c.2.2 = fin) →
      (sched.foldl (mainStep fin) c).2.1 = c.2.1 ++ c.1.take (sched.count Tid.main) ∧
        ((sched.foldl (mainStep fin) c).2.2 = none ∨
          (sched.foldl (mainStep fin) c).2.2 = fin) := by
  induction sched with
  | nil => intro c _ h2; simpa using h2
  | cons t ts ih =>
    intro c h1 h2
    rw [List.foldl_cons]
    obtain ⟨todo, trace, ex⟩ := c
    simp only at h1 h2
    by_cases hx : ex.isSome = true
    · have htodo := h1 hx
      subst htodo
      have hstep : mainStep fin ([], trace, ex) t = ([], trace, ex) := by
        simp [mainStep, hx]
      rw [hstep]
      have := ih ([], trace, ex) (fun _ => rfl) h2
      simpa using this
    · have hex : ex = none := by
        cases ex <;> simp_all
      subst hex
      cases t
      · rcases todo with _ | ⟨ev, rest⟩
        · have hstep : mainStep fin ([], trace, none) Tid.main = ([], trace, fin) := by
            simp [mainStep]
          rw [hstep]
          have := ih ([], trace, fin) (fun _ => rfl) (Or.inr rfl)
          simpa using this
        · have hstep : mainStep fin (ev :: rest, trace, none) Tid.main =
              (rest, trace ++ [ev], if rest = [] then fin else none) := by
            simp [mainStep]
          rw [hstep]
          have := ih (rest, trace ++ [ev], if rest = [] then fin else none)
            (by
              by_cases hr : rest = []
              · intro _; exact hr
              · simp [hr])
            (by
              by_cases hr : rest = []
              · simp [hr]
              · simp [hr])
          simpa [List.count_cons, List.take_succ_cons] using this
      · have hstep : mainStep fin (todo, trace, none) Tid.profiler = (todo, trace, none) := by
          simp [mainStep]
        rw [hstep]
        have := ih (todo, trace, none) (by simp) (Or.inl rfl)
        simpa [List.count_cons] using this
      · have hstep : mainStep fin (todo, trace, none) Tid.metrics = (todo, trace, none) := by
          simp [mainStep]
        rw [hstep]
        have := ih (todo, trace, none) (by simp) (Or.inl rfl)
        simpa [List.count_cons] using this

theorem exec_core (opt : option.Option) (env : Env) (side : SideEnv) (lg : Logger)
    (sched : List Tid) :
    (exec opt env side lg sched).core =
      sched.foldl (mainStep (exitOf (run opt env).2))
        (startupCalls opt env lg ++ ((run opt env).1 ++ epilogue (run opt env).2), [],
          none) := by
  unfold exec
  rw [execWith_core _ _ _ (fun addr => listenerBody_exitFree addr side)
    (metricsRun_exitFree side), mainWith_trace, mainWith_exit]

theorem waitDone_mem_run (opt : option.Option) (env : Env)
    (h1 : env.buildConfig = none) (h2 : env.nodeFactory = none)
    (h3 : env.ksmtunedFactory = none) (h4 : env.register = none)
    (h5 : env.startAll = none) : Event.waitDone ∈ (run opt env).1 := by
  rcases run_cases opt env with ⟨e, h, hr⟩ | ⟨e, -, h, hr⟩ | ⟨e, -, -, h, hr⟩ |
    ⟨e, -, -, -, h, hr⟩ | ⟨e, -, -, -, -, h, hr⟩ | ⟨-, -, -, -, -, -, hr⟩ |
    ⟨-, -, -, -, -, -, hr⟩ <;>
    simp_all

/-- A goroutine that ends the process does cut the main sequence short in
this model: with a listener body that leaves at once, the main sequence
gets no further than the start of the listener. -/
theorem exiting_goroutine_cuts_main_sequence :
    (execWith (fun _ => [GoAction.osExit 1]) [] (some 0)
        (mainWith (parseFlags noFlags) okEnv okSide stdLogger).trace
        [Tid.main, Tid.profiler, Tid.main, Tid.main]).trace =
        [Event.goListenAndServe "0.0.0.0:6060"] ∧
      (execWith (fun _ => [GoAction.osExit 1]) [] (some 0)
        (mainWith (parseFlags noFlags) okEnv okSide stdLogger).trace
        [Tid.main, Tid.profiler, Tid.main, Tid.main]).exit = some 1 := by
  decide

/-- C10: under every schedule of the main goroutine, the listener goroutine
and the metrics goroutine, two runs with the same options and the same
outcomes of the main collaborators, which differ only in the outcomes of
the side channels, make the same calls of the main sequence and end (or go
on) alike, and one reaches the wait for shutdown exactly when the other
does.  The calls made are the first calls of the main sequence, as many as
the schedule gives turns to the main goroutine; the process never ends with
a status other than that of the main sequence; when the main collaborators
succeed and the main goroutine gets its turns, the wait for shutdown is
reached.  The start of a side channel never blocks: the start of the
metrics loop is followed at once by the call of `ksmtuned.Register`, the
start of the listener by the first call of `initLogs`. -/
theorem side_channels_do_not_interfere (opt : option.Option) (env : Env) (lg : Logger)
    (s1 s2 : SideEnv) (sched : List Tid) :
    (exec opt env s1 lg sched).trace = (exec opt env s2 lg sched).trace ∧
      (exec opt env s1 lg sched).exit = (exec opt env s2 lg sched).exit ∧
      (Event.waitDone ∈ (exec opt env s1 lg sched).trace ↔
        Event.waitDone ∈ (exec opt env s2 lg sched).trace) ∧
      (exec opt env s1 lg sched).trace =
        (mainWith opt env s1 lg).trace.take (sched.count Tid.main) ∧
      ((exec opt env s1 lg sched).exit = none ∨
        (exec opt env s1 lg sched).exit = (mainWith opt env s1 lg).exit) ∧
      (env.buildConfig = none → env.nodeFactory = none → env.ksmtunedFactory = none →
        env.register = none → env.startAll = none →
        (mainWith opt env s1 lg).trace.length ≤ sched.count Tid.main →
        Event.waitDone ∈ (exec opt env s1 lg sched).trace) ∧
      (∀ pre post, (mainWith opt env s1 lg).trace = pre ++ Event.goMetricsRun :: post →
        ∃ tl, post = Event.Register opt.NodeName env.register :: tl) ∧
      (∀ a pre post,
        (mainWith opt env s1 lg).trace = pre ++ Event.goListenAndServe a :: post →
        ∃ f tl, post = Event.SetFormatter f :: tl) := by
  have hcore : (exec opt env s1 lg sched).core = (exec opt env s2 lg sched).core := by
    rw [exec_core, exec_core]
  have htr : (exec opt env s1 lg sched).trace = (exec opt env s2 lg sched).trace :=
    congrArg (fun c => c.2.1) hcore
  have hex : (exec opt env s1 lg sched).exit = (exec opt env s2 lg sched).exit :=
    congrArg (fun c => c.2.2) hcore
  have hmain := foldl_mainStep (exitOf (run opt env).2) sched
    (startupCalls opt env lg ++ ((run opt env).1 ++ epilogue (run opt env).2), [], none)
    (by simp) (Or.inl rfl)
  rw [← exec_core opt env s1 lg sched] at hmain
  have htake : (exec opt env s1 lg sched).trace =
      (mainWith opt env s1 lg).trace.take (sched.count Tid.main) := by
    rw [mainWith_trace]
    simpa [World.core] using hmain.1
  refine ⟨htr, hex, by rw [htr], htake, ?_, ?_, ?_, ?_⟩
  · rw [mainWith_exit]
    exact hmain.2
  · intro h1 h2 h3 h4 h5 hlen
    rw [htake, List.take_of_length_le hlen, mainWith_trace]
    apply List.mem_append_right
    apply List.mem_append_left
    exact waitDone_mem_run opt env h1 h2 h3 h4 h5
  · intro pre post h
    rw [mainWith_trace] at h
    have hne : Event.goMetricsRun ∉ startupCalls opt env lg := by
      intro hmem
      rcases startupCalls_mem opt env lg _ hmem with ⟨h1, -⟩ | h1 <;>
        simp [Event.isLogging] at h1
    obtain ⟨mid, -, hmid⟩ := split_after_left hne h
    exact metrics_followed_by_register opt env mid post hmid
  · intro a pre post h
    rw [mainWith_trace] at h
    unfold startupCalls at h
    obtain ⟨f, tl, hf⟩ := initLogs_head env.friendlyVersion opt lg
    have hrest : Event.goListenAndServe a ∉
        (initLogs env.friendlyVersion opt lg).2 ++
          ((run opt env).1 ++ epilogue (run opt env).2) := by
      intro hmem
      rcases List.mem_append.mp hmem with h1 | h1
      · have := initLogs_mem _ opt lg _ h1
        simp [Event.isLogging] at this
      · exact listen_not_mem_run opt env a h1
    by_cases hp : opt.ProfilerAddress = ""
    · exfalso
      apply hrest
      have h' : (initLogs env.friendlyVersion opt lg).2 ++
          ((run opt env).1 ++ epilogue (run opt env).2) =
          pre ++ Event.goListenAndServe a :: post := by
        simpa [initProfiling, hp] using h
      rw [h']; simp
    · have h' : Event.goListenAndServe opt.ProfilerAddress ::
          ((initLogs env.friendlyVersion opt lg).2 ++
            ((run opt env).1 ++ epilogue (run opt env).2)) =
          pre ++ Event.goListenAndServe a :: post := by
        simpa [initProfiling, hp] using h
      rcases pre with _ | ⟨x, pre⟩
      · simp only [List.nil_append, List.cons.injEq] at h'
        refine ⟨f, tl ++ ((run opt env).1 ++ epilogue (run opt env).2), ?_⟩
        rw [← h'.2, hf]; rfl
      · exfalso
        apply hrest
        simp only [List.cons_append, List.cons.injEq] at h'
        rw [h'.2]; simp

theorem side_channels_do_not_interfere_witness :
    Event.waitDone ∈
      (exec (parseFlags noFlags) okEnv failingSide stdLogger (roundRobin 14)).trace :=
  (side_channels_do_not_interfere (parseFlags noFlags) okEnv stdLogger failingSide okSide
    (roundRobin 14)).2.2.2.2.2.1 rfl rfl rfl rfl rfl (by decide)

end NodeManager
